import Mathlib

/-!
Verification of the msband binary codec layer (`src/msband/static/__init__.py`)
against its specification.

Modelling conventions:
* Byte buffers are `List Nat` with each element < 256; multi-byte integers are
  little-endian (construct's `Int16ul`/`Int32ul`/`Int64ul`).
* A construct parse is `List Nat → Option (value × remainder)`.  construct's
  `parse(data)` wraps the buffer in a stream and does not require the stream to
  be exhausted, so a top-level decode ignores any unconsumed remainder.
* A raised Python exception (StreamError, PaddingError, StructError,
  OverflowError, ValueError, struct.error) is modelled as `none`.
* Python `datetime` values are microsecond offsets from the band epoch
  1601-01-01T00:00:00Z (`Int`: `datetime.min` is before the epoch);
  `datetime.max - EPOCH` is `MAXUS` microseconds.
* CPython computes `timedelta.total_seconds()` and the later `* 10000000`
  in IEEE-754 binary64 arithmetic; `rnd53` below is the correctly-rounded
  (round-to-nearest, ties-to-even, 53-bit significand) conversion of a
  nonnegative rational, which is exactly what those operations produce in
  the ranges that occur here (no overflow, no subnormals).
-/

set_option maxRecDepth 100000

namespace Msband

/-- Little-endian byte list of `n`, exactly `k` bytes (construct `IntXul` build
body, used once the range check has passed). -/
def toLE : Nat → Nat → List Nat
  | 0, _ => []
  | k + 1, n => n % 256 :: toLE k (n / 256)

/-- Value of a little-endian byte list (construct `IntXul` parse). -/
def fromLE : List Nat → Nat
  | [] => 0
  | b :: bs => b + 256 * fromLE bs

/-- Build of a `k`-byte little-endian unsigned integer: `struct.pack` raises
when the value does not fit, modelled as `none`. -/
def intLE (k n : Nat) : Option (List Nat) :=
  if n < 256 ^ k then some (toLE k n) else none

/-- A parser over byte lists: the parsed value and the unconsumed remainder,
`none` when construct would raise. -/
def Parser (α : Type) : Type := List Nat → Option (α × List Nat)

/-- Read exactly `k` bytes from the stream (`stream_read` raises when fewer
than `k` bytes remain). -/
def readBytes (k : Nat) : Parser (List Nat) := fun i =>
  if k ≤ i.length then some (i.take k, i.drop k) else none

/-- Parse of a `k`-byte little-endian unsigned integer. -/
def readIntLE (k : Nat) : Parser Nat := fun i =>
  (readBytes k i).map (fun p => (fromLE p.1, p.2))

/-- The byte permutation behind Python's `uuid.UUID` `bytes_le` layout: the
three leading components (32-bit, 16-bit, 16-bit) byte-reversed, the trailing
8 bytes in natural order.  It is its own inverse on 16-byte lists. -/
def guidShuffle (b : List Nat) : List Nat :=
  (b.take 4).reverse ++ ((b.drop 4).take 2).reverse
    ++ ((b.drop 6).take 2).reverse ++ b.drop 8

/-- `GUIDAdapter._decode`: `uuid.UUID(bytes_le=guid)`.  The UUID value is
represented by its canonical big-endian byte sequence (`uuid.bytes`);
`UUID(bytes_le=...)` raises unless given exactly 16 bytes. -/
def guidFromBytesLE (b : List Nat) : Option (List Nat) :=
  if b.length = 16 then some (guidShuffle b) else none

/-- `GUIDAdapter._encode`: `guid.bytes_le`. -/
def guidBytesLE (u : List Nat) : List Nat := guidShuffle u

/-- GUID field build: the adapter's output must satisfy `Bytes(16)`, which
raises unless handed exactly 16 bytes. -/
def guidBuild (u : List Nat) : Option (List Nat) :=
  if (guidBytesLE u).length = 16 then some (guidBytesLE u) else none

/-- GUID field parse: `Bytes(16)` then `GUIDAdapter._decode`. -/
def guidParse : Parser (List Nat) := fun i =>
  (readBytes 16 i).bind (fun p => (guidFromBytesLE p.1).map (fun u => (u, p.2)))

/-- `MeTileAdapter._encode`, per pixel: the two bytes emitted for an 8-bit RGB
pixel, in stream order.  Translated from
`((g_value << 3) & 0b11100000) | (b_value >> 3 & 0b00011111)` and
`(r_value & 0b11111000) | ((g_value >> 2) >> 3 & 0b00000111)`. -/
def mePixelPack (r g b : Nat) : Nat × Nat :=
  (((g <<< 3) &&& 0xE0) ||| ((b >>> 3) &&& 0x1F),
   (r &&& 0xF8) ||| (((g >>> 2) >>> 3) &&& 0x07))

/-- The named single-bit members of `TileSettings`.  (The zero-valued `Null`
member is skipped by `IntFlag` iteration on Python 3.11+, and a zero value
contributes no bits to any mask either way, so it is omitted here.) -/
inductive FlagName where
  | enableNotification
  | enableBadging
  | useCustomColorForTile
  | enableAutoUpdate
  | screenTimeout30Seconds
  | screenTimeoutDisabled
deriving DecidableEq

/-- The `TileSettings` name → value table handed to `FlagsEnum`. -/
def flagValue : FlagName → Nat
  | .enableNotification => 1
  | .enableBadging => 2
  | .useCustomColorForTile => 4
  | .enableAutoUpdate => 8
  | .screenTimeout30Seconds => 16
  | .screenTimeoutDisabled => 32

/-- The table rows in iteration (= declaration) order. -/
def tileSettingsFlags : List FlagName :=
  [.enableNotification, .enableBadging, .useCustomColorForTile,
   .enableAutoUpdate, .screenTimeout30Seconds, .screenTimeoutDisabled]

/-- construct `FlagsEnum._decode`: a container mapping every named flag to
`stored & value == value`.  Bits outside the named flags are not represented.
(The container also carries a bookkeeping `_flagsenum` key, skipped by
`_encode` because it starts with an underscore; it holds no mask bits and is
omitted from the model.) -/
def flagsEnumDecode (m : Nat) : List (FlagName × Bool) :=
  tileSettingsFlags.map (fun n => (n, m &&& flagValue n == flagValue n))

/-- construct `FlagsEnum._encode` on a decoded container: OR together the
values of the flags that are set. -/
def flagsEnumEncode (c : List (FlagName × Bool)) : Nat :=
  c.foldl (fun acc p => if p.2 then acc ||| flagValue p.1 else acc) 0

/-- Microseconds from the band epoch 1601-01-01T00:00:00Z to
`datetime.max` = 9999-12-31T23:59:59.999999 (3067671 days minus 1 µs). -/
def MAXUS : Nat := 265046774399999999

/-- Microseconds from `datetime.min` = 0001-01-01T00:00:00 up to the band
epoch (584388 days), negated: the least offset a Python datetime can hold. -/
def MINUS : Int := -50491123200000000

/-- Floor of `a · 2^f / b` for an integer exponent `f`. -/
def floorScaled (a b : Nat) (f : Int) : Nat :=
  if 0 ≤ f then a * 2 ^ f.toNat / b else a / (b * 2 ^ (-f).toNat)

/-- Numerator of `(a/b) · 2^f` written over the denominator `scaledDen b f`. -/
def scaledNum (a : Nat) (f : Int) : Nat :=
  if 0 ≤ f then a * 2 ^ f.toNat else a

/-- Denominator for `scaledNum`. -/
def scaledDen (b : Nat) (f : Int) : Nat :=
  if 0 ≤ f then b else b * 2 ^ (-f).toNat

/-- The scaling exponent that places a positive rational `a/b` into the 53-bit
significand window: the least `f` with `2^52 ≤ ⌊a·2^f/b⌋` (then automatically
`⌊a·2^f/b⌋ < 2^53`).  Searched over `[-200, 200)`, ample for every magnitude
arising from the codec. -/
def mantShift (a b : Nat) : Int :=
  match (List.range 400).find?
      (fun i => decide (2 ^ 52 ≤ floorScaled a b ((i : Int) - 200))) with
  | some i => (i : Int) - 200
  | none => 0

/-- Correctly rounded conversion of the nonnegative rational `a/b` to an IEEE
binary64 value (round-to-nearest, ties-to-even, 53-bit significand).  The
double is represented exactly as a dyadic pair `(m, f)` denoting `m · 2^(-f)`
(no normalisation is needed to denote the value; overflow and subnormals
cannot occur in the ranges used here). -/
def rnd53 (a b : Nat) : Nat × Int :=
  if a = 0 then (0, 0) else
  let f := mantShift a b
  let A := scaledNum a f
  let B := scaledDen b f
  let m0 := A / B
  let r := A % B
  let m := if 2 * r < B then m0
           else if B < 2 * r then m0 + 1
           else if m0 % 2 = 0 then m0 else m0 + 1
  (m, f)

/-- Floor of the dyadic value `m · 2^(-f)`. -/
def dyadicFloor (m : Nat) (f : Int) : Nat :=
  if 0 ≤ f then m / 2 ^ f.toNat else m * 2 ^ (-f).toNat

/-- `timedelta.total_seconds()` of a delta of `us` microseconds: CPython
returns `((days*86400 + seconds)*10**6 + microseconds) / 10**6`, a single
true division of the exact integer `us` by `10**6` in binary64. -/
def totalSeconds (us : Nat) : Nat × Int := rnd53 us 1000000

/-- `BandTime._encode` arithmetic,
`int((date - EPOCH).total_seconds() * 10000000)`: the float product of the
`total_seconds()` double with `10000000` is rounded to binary64 once more
(the exact product is written as the fraction `a / b` below), then `int()`
truncates toward zero (the value is nonnegative here). -/
def bandEncodeTicks (us : Nat) : Nat :=
  let ts := totalSeconds us
  let a := ts.1 * 10000000 * (if ts.2 < 0 then 2 ^ (-ts.2).toNat else 1)
  let b := if 0 ≤ ts.2 then 2 ^ ts.2.toNat else 1
  let x := rnd53 a b
  dyadicFloor x.1 x.2

/-- `BandTime._encode` with its guards: the `date > datetime.max` branch is
unreachable (no datetime exceeds `datetime.max`), `date < EPOCH` raises
`ValueError`. -/
def bandTimeEncode (us : Int) : Option Nat :=
  if (MAXUS : Int) < us then none
  else if us < 0 then none
  else some (bandEncodeTicks us.toNat)

/-- `BandTime._decode`: `EPOCH + timedelta(microseconds=obj // 10)`; the sum
raises `OverflowError` when the result would pass `datetime.max`. -/
def bandDecodeTicks (t : Nat) : Option Nat :=
  if t / 10 ≤ MAXUS then some (t / 10) else none

/-- A `BandTime(Int64ul)` field build: adapter encode, then `Int64ul`. -/
def bandFieldBuild (us : Int) : Option (List Nat) :=
  (bandTimeEncode us).bind (fun t => intLE 8 t)

/-- A `BandTime(Int64ul)` field parse: `Int64ul`, then adapter decode (the
decoded datetime is at or after the epoch; returned as `Int` microseconds). -/
def bandFieldParse : Parser Int := fun i =>
  (readBytes 8 i).bind (fun p =>
    (bandDecodeTicks (fromLE p.1)).map (fun us => ((us : Int), p.2)))

/-- Whether a microsecond offset survives the float-based tick encode and the
decode exactly.  True for, e.g., whole seconds near the epoch; false in
general (see the C4 theorem). -/
def bandRoundTripsB (us : Int) : Bool :=
  decide (0 ≤ us) &&
    (match bandTimeEncode us with
     | some t => decide (t < 2 ^ 64) && decide (bandDecodeTicks t = some us.toNat)
     | none => false)

/-- The `ARGB` dataclass: four 8-bit channels. -/
structure ARGB where
  red : Nat
  green : Nat
  blue : Nat
  alpha : Nat
deriving DecidableEq

/-- `ArgbAdapter._decode`: `ARGB.struct.parse(obj)` reads the 4 bytes as
alpha, red, green, blue and fills the dataclass. -/
def argbAdapterDecode (bs : List Nat) : Option ARGB :=
  match bs with
  | [a, r, g, b] => some ⟨r, g, b, a⟩
  | _ => none

/-- `ArgbAdapter._encode` as written: `ARGB.struct.build(vars(ARGB), **context)`.
`vars(ARGB)` is the namespace of the `ARGB` *class*, not of the instance being
encoded: it holds `alpha = 255` (a dataclass default is kept as a class
attribute) but no `red`, `green` or `blue` (fields without defaults leave no
class attribute), so the struct build raises "missing value for red" for every
input.  Modelled as the constant failure. -/
def argbAdapterEncode (_ : ARGB) : Option (List Nat) := none

/-- `ArgbStruct = ArgbAdapter(Bytes(4))`, parse side. -/
def argbParse : Parser ARGB := fun i =>
  (readBytes 4 i).bind (fun p => (argbAdapterDecode p.1).map (fun c => (c, p.2)))

/-- UTF-16-LE bytes of a list of code units (Python `str.encode("utf_16_le")`
on a string of BMP scalars). -/
def utf16leBytes : List Nat → List Nat
  | [] => []
  | u :: us => u % 256 :: u / 256 % 256 :: utf16leBytes us

/-- A 16-bit code unit that is a BMP scalar value (not a surrogate).  The
strict Python codec refuses lone surrogates in either direction;
supplementary-plane surrogate pairs are outside this model (no claim needs
them, and every buffer in the theorems below stays within the BMP). -/
def scalarUnit (u : Nat) : Bool := u < 0xD800 || (0xE000 ≤ u && u < 0x10000)

/-- Group bytes into 16-bit little-endian code units; odd length fails. -/
def bytesToUnits : List Nat → Option (List Nat)
  | [] => some []
  | lo :: hi :: rest => (bytesToUnits rest).map (fun us => (lo + 256 * hi) :: us)
  | [_] => none

/-- Python `bytes.decode("utf_16_le")` (strict), restricted to BMP scalars. -/
def utf16leDecode (bs : List Nat) : Option (List Nat) :=
  (bytesToUnits bs).bind (fun us => if us.all scalarUnit then some us else none)

/-- Helper for `NullStripped` with a two-byte unit, acting on a reversed
buffer: drop leading `00 00` pairs. -/
def stripNullPairsRev : List Nat → List Nat
  | 0 :: 0 :: rest => stripNullPairsRev rest
  | l => l

/-- construct `NullStripped(..., pad=b"\x00\x00")` parse step: strip trailing
`00 00` pairs (every buffer it sees here has even length). -/
def stripNullPairs (l : List Nat) : List Nat :=
  (stripNullPairsRev l.reverse).reverse

/-- `PaddedString(cap, "utf_16_le")` build: encode the text, fail when it
overruns the fixed byte size (`FixedSized` raises), zero-pad up to it. -/
def paddedStringBuild (cap : Nat) (units : List Nat) : Option (List Nat) :=
  if units.all scalarUnit then
    if (utf16leBytes units).length ≤ cap then
      some (utf16leBytes units ++ List.replicate (cap - (utf16leBytes units).length) 0)
    else none
  else none

/-- `PaddedString(cap, "utf_16_le")` parse: read the fixed byte size, strip
trailing null pairs, decode. -/
def paddedStringParse (cap : Nat) : Parser (List Nat) := fun i =>
  (readBytes cap i).bind (fun p =>
    (utf16leDecode (stripNullPairs p.1)).map (fun us => (us, p.2)))

/-- construct `Padded(n, sc)` build: fail when the content overruns `n`
(PaddingError), otherwise zero-pad to exactly `n` bytes. -/
def paddedBuild (n : Nat) (content : Option (List Nat)) : Option (List Nat) :=
  content.bind (fun c =>
    if c.length ≤ n then some (c ++ List.replicate (n - c.length) 0) else none)

/-- construct `Padded(n, sc)` parse: parse `sc`, then skip bytes up to `n`
consumed in total; fail when `sc` consumed more than `n` (PaddingError) or
when fewer bytes remain than the padding needs (StreamError). -/
def paddedParse {α : Type} (n : Nat) (p : Parser α) : Parser α := fun i =>
  (p i).bind (fun q =>
    if i.length - q.2.length ≤ n ∧ n - (i.length - q.2.length) ≤ q.2.length then
      some (q.1, q.2.drop (n - (i.length - q.2.length)))
    else none)

/-- A `Tile` value as handed to `TileData.build` (the `_NameLength` prefix is
absent and computed by its `Default` as `len_(this.TileName)`; a raw integer
mask passes `FlagsEnum._encode` unchanged). -/
structure TileRec where
  GUID : List Nat
  Order : Nat
  ThemeColor : ARGB
  SettingsMask : Nat
  TileName : List Nat
  OwnerGUID : List Nat
deriving DecidableEq

/-- `TileData` build: the declared fields in order, inside
`Padded(16 + 4 + 4 + 2 + 2 + 60, ...)` = `Padded(88, ...)`.  (That total
counts the name's 60-byte capacity but not the 16-byte `OwnerGUID`.)  The
`ThemeColor` build invokes the broken `ArgbAdapter._encode`, so the whole
build fails for every record; the earlier fields are retained for fidelity to
the build order. -/
def tileEncode (r : TileRec) : Option (List Nat) :=
  paddedBuild (16 + 4 + 4 + 2 + 2 + 60) (
    (guidBuild r.GUID).bind (fun b1 =>
    (intLE 4 r.Order).bind (fun b2 =>
    (argbAdapterEncode r.ThemeColor).bind (fun b3 =>
    (intLE 2 r.TileName.length).bind (fun b4 =>
    (intLE 2 r.SettingsMask).bind (fun b5 =>
    (paddedStringBuild (r.TileName.length * 2) r.TileName).bind (fun b6 =>
    (guidBuild r.OwnerGUID).map (fun b7 =>
    b1 ++ (b2 ++ (b3 ++ (b4 ++ (b5 ++ (b6 ++ b7)))))))))))))

/-- A parsed `Tile` container (every field, the `_NameLength` prefix
included, as construct returns it). -/
structure TileParsed where
  GUID : List Nat
  Order : Nat
  ThemeColor : ARGB
  NameLength : Nat
  SettingsMask : List (FlagName × Bool)
  TileName : List Nat
  OwnerGUID : List Nat
deriving DecidableEq

/-- The `TileData` field sequence, parse side. -/
def tileParse : Parser TileParsed := fun i =>
  (guidParse i).bind (fun p1 =>
  (readIntLE 4 p1.2).bind (fun p2 =>
  (argbParse p2.2).bind (fun p3 =>
  (readIntLE 2 p3.2).bind (fun p4 =>
  (readIntLE 2 p4.2).bind (fun p5 =>
  (paddedStringParse (p4.1 * 2) p5.2).bind (fun p6 =>
  (guidParse p6.2).map (fun p7 =>
  (⟨p1.1, p2.1, p3.1, p4.1, flagsEnumDecode p5.1, p6.1, p7.1⟩, p7.2))))))))

/-- `TileData.parse`: the `Padded(88, ...)` wrapper.  construct's
`parse(data)` does not require the stream to be exhausted, so trailing bytes
beyond the 88 are ignored. -/
def tileDecode (b : List Nat) : Option TileParsed :=
  (paddedParse (16 + 4 + 4 + 2 + 2 + 60) tileParse b).map (fun p => p.1)

/-- The `BandSystemTime` dataclass: eight 16-bit fields. -/
structure BandSystemTime where
  Year : Nat
  Month : Nat
  DayOfWeek : Nat
  Day : Nat
  Hour : Nat
  Minute : Nat
  Second : Nat
  Milliseconds : Nat
deriving DecidableEq

/-- `BandSystemTimeStruct` build: eight consecutive `Int16ul`. -/
def bandSystemTimeBuild (s : BandSystemTime) : Option (List Nat) :=
  (intLE 2 s.Year).bind (fun b1 =>
  (intLE 2 s.Month).bind (fun b2 =>
  (intLE 2 s.DayOfWeek).bind (fun b3 =>
  (intLE 2 s.Day).bind (fun b4 =>
  (intLE 2 s.Hour).bind (fun b5 =>
  (intLE 2 s.Minute).bind (fun b6 =>
  (intLE 2 s.Second).bind (fun b7 =>
  (intLE 2 s.Milliseconds).map (fun b8 =>
  b1 ++ (b2 ++ (b3 ++ (b4 ++ (b5 ++ (b6 ++ (b7 ++ b8))))))))))))))

/-- `BandSystemTimeStruct` parse. -/
def bandSystemTimeParse : Parser BandSystemTime := fun i =>
  (readIntLE 2 i).bind (fun p1 =>
  (readIntLE 2 p1.2).bind (fun p2 =>
  (readIntLE 2 p2.2).bind (fun p3 =>
  (readIntLE 2 p3.2).bind (fun p4 =>
  (readIntLE 2 p4.2).bind (fun p5 =>
  (readIntLE 2 p5.2).bind (fun p6 =>
  (readIntLE 2 p6.2).bind (fun p7 =>
  (readIntLE 2 p7.2).map (fun p8 =>
  (⟨p1.1, p2.1, p3.1, p4.1, p5.1, p6.1, p7.1, p8.1⟩, p8.2)))))))))

/-- Gregorian leap-year rule, as Python's `datetime` uses it. -/
def isLeap (y : Nat) : Bool := y % 4 == 0 && (y % 100 != 0 || y % 400 == 0)

/-- Days in a month, as Python's `datetime` validates them. -/
def daysInMonth (y m : Nat) : Nat :=
  if m = 2 then (if isLeap y then 29 else 28)
  else if m = 4 ∨ m = 6 ∨ m = 9 ∨ m = 11 then 30 else 31

/-- A Python `datetime`'s stored, validated components. -/
structure PyDateTime where
  year : Nat
  month : Nat
  day : Nat
  hour : Nat
  minute : Nat
  second : Nat
  microsecond : Nat
deriving DecidableEq

/-- `BandSystemDateTimeAdapter._decode`: calls
`dt.datetime(year=obj.Year, month=obj.Month, day=obj.Day, hour=obj.Hour,
minute=obj.Minute, second=obj.Second, microsecond=obj.Milliseconds * 1000)`;
the constructor validates each component (`ValueError` otherwise).
`obj.DayOfWeek` is never consulted. -/
def bandSystemDateTimeDecode (s : BandSystemTime) : Option PyDateTime :=
  if 1 ≤ s.Year ∧ s.Year ≤ 9999 ∧ 1 ≤ s.Month ∧ s.Month ≤ 12
      ∧ 1 ≤ s.Day ∧ s.Day ≤ daysInMonth s.Year s.Month
      ∧ s.Hour < 24 ∧ s.Minute < 60 ∧ s.Second < 60
      ∧ s.Milliseconds * 1000 < 1000000 then
    some ⟨s.Year, s.Month, s.Day, s.Hour, s.Minute, s.Second,
          s.Milliseconds * 1000⟩
  else none

/-- The `UserProfile` dataclass. -/
structure UserProfileRec where
  Version : Nat
  LastSync : Int
  UserGUID : List Nat
  ReservedData : List Nat

/-- `UserProfileStruct` build: `Int16ul`, `BandTime(Int64ul)`, a GUID and
`Bytes(256)` (which raises unless handed exactly 256 bytes). -/
def userProfileEncode (r : UserProfileRec) : Option (List Nat) :=
  (intLE 2 r.Version).bind (fun b1 =>
  (bandFieldBuild r.LastSync).bind (fun b2 =>
  (guidBuild r.UserGUID).bind (fun b3 =>
  (if r.ReservedData.length = 256 then some r.ReservedData else none).map
    (fun b4 => b1 ++ (b2 ++ (b3 ++ b4))))))

/-- `UserProfileStruct` parse. -/
def userProfileParse : Parser UserProfileRec := fun i =>
  (readIntLE 2 i).bind (fun p1 =>
  (bandFieldParse p1.2).bind (fun p2 =>
  (guidParse p2.2).bind (fun p3 =>
  (readBytes 256 p3.2).map (fun p4 =>
  (⟨p1.1, p2.1, p3.1, p4.1⟩, p4.2)))))

/-- Modelled from the spec: the i18n enumeration codecs (`LocaleIdAdapter`,
`LanguageAdapter`, `DisplayTimeFormatAdapter`, `DisplayDateFormatAdapter`,
`UnitTypeAdapter`) are imported from `msband/static/i18n.py`, a repository
file not provided under `src/`.  Per the spec they encode a named enumeration
member as a `k`-byte unsigned integer through a name→code table; the member is
represented here by its integer code, so the field build is the `k`-byte
unsigned-integer build (the claims settled with it do not depend on the
table's contents). -/
def enumFieldBuild (k code : Nat) : Option (List Nat) := intLE k code

/-- Modelled from the spec: parse side of the i18n enumeration codecs; the
decoded member is represented by its integer code. -/
def enumFieldParse (k : Nat) : Parser Nat := readIntLE k

/-- `TEnum(Int8ul, Gender)` build: writes the member's value; `Gender` (from
this file) has members `Male = 0` and `Female = 1`, and the typed field can
hold no other value. -/
def genderBuild (g : Nat) : Option (List Nat) :=
  if g = 0 ∨ g = 1 then some [g] else none

/-- `TEnum(Int8ul, Gender)` parse: a code that is no `Gender` member
raises. -/
def genderParse : Parser Nat := fun i =>
  (readIntLE 1 i).bind (fun p =>
    if p.1 = 0 ∨ p.1 = 1 then some (p.1, p.2) else none)

/-- construct `Flag` build: a boolean as one byte. -/
def flagBuild (b : Bool) : List Nat := [if b then 1 else 0]

/-- construct `Flag` parse: nonzero is true. -/
def flagParse : Parser Bool := fun i =>
  (readIntLE 1 i).map (fun p => (decide (p.1 ≠ 0), p.2))

/-- construct `If(cond, sc)` build (`IfThenElse` with `Pass`): when the
condition fails the field contributes no bytes whatever its value; when it
holds, a `None` value reaches `sc` and raises. -/
def ifBuild {α : Type} (cond : Bool) (v : Option α)
    (build : α → Option (List Nat)) : Option (List Nat) :=
  if cond then (match v with | some x => build x | none => none) else some []

/-- construct `If(cond, sc)` parse: `sc` when the condition holds, else the
`Pass` branch yields `None` and consumes nothing. -/
def ifParse {α : Type} (cond : Bool) (p : Parser α) : Parser (Option α) :=
  fun i => if cond then (p i).map (fun q => (some q.1, q.2)) else some (none, i)

/-- The `Profile` dataclass.  Timestamps are `Int` microsecond offsets from
the band epoch; enumeration members are their integer codes; the nine
version-gated fields are `Option`s.  The record is assembled from the chunk
records below, which follow the declared field order. -/
structure ProfileRec where
  Version : Nat
  LastSync : Int
  UserGUID : List Nat
  Birthday : Int
  Weight_g : Nat
  Height_mm : Nat
  Gender : Nat
  DeviceName : List Nat
  LocaleName : List Nat
  LocaleId : Nat
  Language : Nat
  DateSeparator : List Nat
  NumberSeparator : List Nat
  DecimalSeparator : List Nat
  TimeFormat : Nat
  DateFormat : Nat
  DistanceShortUnits : Nat
  DistanceLongUnits : Nat
  MassUnits : Nat
  VolumeUnits : Nat
  EnergyUnits : Nat
  TemperatureUnits : Nat
  RunDisplayUnits : Nat
  Telemetry : Bool
  HwagChangeTime : Option Int
  HwagChangeAgent : Option Nat
  DeviceNameChangeTime : Option Int
  DeviceNameChangeAgent : Option Nat
  LocaleSettingsChangeTime : Option Int
  LocaleSettingsChangeAgent : Option Nat
  LanguageChangeTime : Option Int
  LanguageChangeAgent : Option Nat
  MaxHR : Option Nat
  ReservedData : List Nat

/-- `Profile` fields 1-6 (`Version` .. `Height_mm`). -/
structure ProfileA where
  Version : Nat
  LastSync : Int
  UserGUID : List Nat
  Birthday : Int
  Weight_g : Nat
  Height_mm : Nat

/-- `Profile` fields 7-11 (`Gender` .. `Language`). -/
structure ProfileB where
  Gender : Nat
  DeviceName : List Nat
  LocaleName : List Nat
  LocaleId : Nat
  Language : Nat

/-- `Profile` fields 12-16 (`DateSeparator` .. `DateFormat`). -/
structure ProfileC where
  DateSeparator : List Nat
  NumberSeparator : List Nat
  DecimalSeparator : List Nat
  TimeFormat : Nat
  DateFormat : Nat

/-- `Profile` fields 17-24 (`DistanceShortUnits` .. `Telemetry`). -/
structure ProfileD where
  DistanceShortUnits : Nat
  DistanceLongUnits : Nat
  MassUnits : Nat
  VolumeUnits : Nat
  EnergyUnits : Nat
  TemperatureUnits : Nat
  RunDisplayUnits : Nat
  Telemetry : Bool

/-- `Profile` gated fields 25-28 (`HwagChangeTime` .. `DeviceNameChangeAgent`). -/
structure ProfileG1 where
  HwagChangeTime : Option Int
  HwagChangeAgent : Option Nat
  DeviceNameChangeTime : Option Int
  DeviceNameChangeAgent : Option Nat

/-- `Profile` gated fields 29-33 (`LocaleSettingsChangeTime` .. `MaxHR`). -/
structure ProfileG2 where
  LocaleSettingsChangeTime : Option Int
  LocaleSettingsChangeAgent : Option Nat
  LanguageChangeTime : Option Int
  LanguageChangeAgent : Option Nat
  MaxHR : Option Nat

/-- Assemble the flat `Profile` record from the parsed chunks and the
`GreedyBytes` remainder. -/
def mkProfile (a : ProfileA) (b : ProfileB) (c : ProfileC) (d : ProfileD)
    (g1 : ProfileG1) (g2 : ProfileG2) (res : List Nat) : ProfileRec :=
  ProfileRec.mk a.Version a.LastSync a.UserGUID a.Birthday a.Weight_g
    a.Height_mm b.Gender b.DeviceName b.LocaleName b.LocaleId b.Language
    c.DateSeparator c.NumberSeparator c.DecimalSeparator c.TimeFormat
    c.DateFormat d.DistanceShortUnits d.DistanceLongUnits d.MassUnits
    d.VolumeUnits d.EnergyUnits d.TemperatureUnits d.RunDisplayUnits
    d.Telemetry g1.HwagChangeTime g1.HwagChangeAgent g1.DeviceNameChangeTime
    g1.DeviceNameChangeAgent g2.LocaleSettingsChangeTime
    g2.LocaleSettingsChangeAgent g2.LanguageChangeTime g2.LanguageChangeAgent
    g2.MaxHR res

/-- Build of `Profile` fields 1-6. -/
def profileBuildA (r : ProfileRec) : Option (List Nat) := do
  let b1 ← intLE 2 r.Version
  let b2 ← bandFieldBuild r.LastSync
  let b3 ← guidBuild r.UserGUID
  let b4 ← bandFieldBuild r.Birthday
  let b5 ← intLE 4 r.Weight_g
  let b6 ← intLE 2 r.Height_mm
  return b1 ++ (b2 ++ (b3 ++ (b4 ++ (b5 ++ b6))))

/-- Build of `Profile` fields 7-11. -/
def profileBuildB (r : ProfileRec) : Option (List Nat) := do
  let b1 ← genderBuild r.Gender
  let b2 ← paddedStringBuild 32 r.DeviceName
  let b3 ← paddedStringBuild 12 r.LocaleName
  let b4 ← enumFieldBuild 2 r.LocaleId
  let b5 ← enumFieldBuild 2 r.Language
  return b1 ++ (b2 ++ (b3 ++ (b4 ++ b5)))

/-- Build of `Profile` fields 12-16. -/
def profileBuildC (r : ProfileRec) : Option (List Nat) := do
  let b1 ← paddedStringBuild 2 r.DateSeparator
  let b2 ← paddedStringBuild 2 r.NumberSeparator
  let b3 ← paddedStringBuild 2 r.DecimalSeparator
  let b4 ← enumFieldBuild 1 r.TimeFormat
  let b5 ← enumFieldBuild 1 r.DateFormat
  return b1 ++ (b2 ++ (b3 ++ (b4 ++ b5)))

/-- Build of `Profile` fields 17-24. -/
def profileBuildD (r : ProfileRec) : Option (List Nat) := do
  let b1 ← enumFieldBuild 1 r.DistanceShortUnits
  let b2 ← enumFieldBuild 1 r.DistanceLongUnits
  let b3 ← enumFieldBuild 1 r.MassUnits
  let b4 ← enumFieldBuild 1 r.VolumeUnits
  let b5 ← enumFieldBuild 1 r.EnergyUnits
  let b6 ← enumFieldBuild 1 r.TemperatureUnits
  let b7 ← enumFieldBuild 1 r.RunDisplayUnits
  return b1 ++ (b2 ++ (b3 ++ (b4 ++ (b5 ++ (b6 ++ (b7 ++ flagBuild r.Telemetry))))))

/-- Build of the gated fields 25-28 (present iff `Version >= 2`). -/
def profileBuildG1 (r : ProfileRec) : Option (List Nat) := do
  let b1 ← ifBuild (decide (2 ≤ r.Version)) r.HwagChangeTime bandFieldBuild
  let b2 ← ifBuild (decide (2 ≤ r.Version)) r.HwagChangeAgent (intLE 1)
  let b3 ← ifBuild (decide (2 ≤ r.Version)) r.DeviceNameChangeTime bandFieldBuild
  let b4 ← ifBuild (decide (2 ≤ r.Version)) r.DeviceNameChangeAgent (intLE 1)
  return b1 ++ (b2 ++ (b3 ++ b4))

/-- Build of the gated fields 29-33 (present iff `Version >= 2`). -/
def profileBuildG2 (r : ProfileRec) : Option (List Nat) := do
  let b1 ← ifBuild (decide (2 ≤ r.Version)) r.LocaleSettingsChangeTime bandFieldBuild
  let b2 ← ifBuild (decide (2 ≤ r.Version)) r.LocaleSettingsChangeAgent (intLE 1)
  let b3 ← ifBuild (decide (2 ≤ r.Version)) r.LanguageChangeTime bandFieldBuild
  let b4 ← ifBuild (decide (2 ≤ r.Version)) r.LanguageChangeAgent (intLE 1)
  let b5 ← ifBuild (decide (2 ≤ r.Version)) r.MaxHR (intLE 1)
  return b1 ++ (b2 ++ (b3 ++ (b4 ++ b5)))

/-- The `DataclassStruct(Profile)` build, before padding: every field in
declared order; `GreedyBytes` writes `ReservedData` verbatim. -/
def profileContent (r : ProfileRec) : Option (List Nat) := do
  let a ← profileBuildA r
  let b ← profileBuildB r
  let c ← profileBuildC r
  let d ← profileBuildD r
  let g1 ← profileBuildG1 r
  let g2 ← profileBuildG2 r
  return a ++ (b ++ (c ++ (d ++ (g1 ++ (g2 ++ r.ReservedData)))))

/-- `ProfileStruct = Padded(397, DataclassStruct(Profile))`, build side. -/
def profileEncode (r : ProfileRec) : Option (List Nat) :=
  paddedBuild 397 (profileContent r)

/-- Parse of `Profile` fields 1-6. -/
def profileParseA : Parser ProfileA := fun i => do
  let p1 ← readIntLE 2 i
  let p2 ← bandFieldParse p1.2
  let p3 ← guidParse p2.2
  let p4 ← bandFieldParse p3.2
  let p5 ← readIntLE 4 p4.2
  let p6 ← readIntLE 2 p5.2
  return (ProfileA.mk p1.1 p2.1 p3.1 p4.1 p5.1 p6.1, p6.2)

/-- Parse of `Profile` fields 7-11. -/
def profileParseB : Parser ProfileB := fun i => do
  let p1 ← genderParse i
  let p2 ← paddedStringParse 32 p1.2
  let p3 ← paddedStringParse 12 p2.2
  let p4 ← enumFieldParse 2 p3.2
  let p5 ← enumFieldParse 2 p4.2
  return (ProfileB.mk p1.1 p2.1 p3.1 p4.1 p5.1, p5.2)

/-- Parse of `Profile` fields 12-16. -/
def profileParseC : Parser ProfileC := fun i => do
  let p1 ← paddedStringParse 2 i
  let p2 ← paddedStringParse 2 p1.2
  let p3 ← paddedStringParse 2 p2.2
  let p4 ← enumFieldParse 1 p3.2
  let p5 ← enumFieldParse 1 p4.2
  return (ProfileC.mk p1.1 p2.1 p3.1 p4.1 p5.1, p5.2)

/-- Parse of `Profile` fields 17-24. -/
def profileParseD : Parser ProfileD := fun i => do
  let p1 ← enumFieldParse 1 i
  let p2 ← enumFieldParse 1 p1.2
  let p3 ← enumFieldParse 1 p2.2
  let p4 ← enumFieldParse 1 p3.2
  let p5 ← enumFieldParse 1 p4.2
  let p6 ← enumFieldParse 1 p5.2
  let p7 ← enumFieldParse 1 p6.2
  let p8 ← flagParse p7.2
  return (ProfileD.mk p1.1 p2.1 p3.1 p4.1 p5.1 p6.1 p7.1 p8.1, p8.2)

/-- Parse of the gated fields 25-28; `cond` is `Version >= 2` over the
already-decoded `Version`. -/
def profileParseG1 (cond : Bool) : Parser ProfileG1 := fun i => do
  let p1 ← ifParse cond bandFieldParse i
  let p2 ← ifParse cond (readIntLE 1) p1.2
  let p3 ← ifParse cond bandFieldParse p2.2
  let p4 ← ifParse cond (readIntLE 1) p3.2
  return (ProfileG1.mk p1.1 p2.1 p3.1 p4.1, p4.2)

/-- Parse of the gated fields 29-33. -/
def profileParseG2 (cond : Bool) : Parser ProfileG2 := fun i => do
  let p1 ← ifParse cond bandFieldParse i
  let p2 ← ifParse cond (readIntLE 1) p1.2
  let p3 ← ifParse cond bandFieldParse p2.2
  let p4 ← ifParse cond (readIntLE 1) p3.2
  let p5 ← ifParse cond (readIntLE 1) p4.2
  return (ProfileG2.mk p1.1 p2.1 p3.1 p4.1 p5.1, p5.2)

/-- The `DataclassStruct(Profile)` parse: fields in order, the nine gated
fields present iff the already-decoded `Version` is at least 2, and
`GreedyBytes` capturing every remaining byte into `ReservedData` (so the
parser's own remainder is always empty). -/
def profileParse : Parser ProfileRec := fun i => do
  let a ← profileParseA i
  let b ← profileParseB a.2
  let c ← profileParseC b.2
  let d ← profileParseD c.2
  let g1 ← profileParseG1 (decide (2 ≤ a.1.Version)) d.2
  let g2 ← profileParseG2 (decide (2 ≤ a.1.Version)) g1.2
  return (mkProfile a.1 b.1 c.1 d.1 g1.1 g2.1 g2.2, ([] : List Nat))

/-- `ProfileStruct.parse`: the `Padded(397, ...)` wrapper; because
`GreedyBytes` consumes the entire stream, only a buffer of exactly 397 bytes
leaves the wrapper the zero padding bytes it then requires. -/
def profileDecode (b : List Nat) : Option ProfileRec :=
  (paddedParse 397 profileParse b).map (fun p => p.1)

/-! ### Infrastructure lemmas -/

theorem toLE_length (k : Nat) : ∀ n, (toLE k n).length = k := by
  induction k with
  | zero => intro n; rfl
  | succ k ih => intro n; simp [toLE, ih]

theorem fromLE_toLE (k : Nat) : ∀ n, n < 256 ^ k → fromLE (toLE k n) = n := by
  induction k with
  | zero => intro n h; interval_cases n; rfl
  | succ k ih =>
      intro n h
      have hd : n / 256 < 256 ^ k := by
        have : 256 ^ (k + 1) = 256 ^ k * 256 := by ring
        omega
      simp [toLE, fromLE, ih _ hd]
      omega

theorem readBytes_exact (k : Nat) (l r : List Nat) (h : l.length = k) :
    readBytes k (l ++ r) = some (l, r) := by
  subst h
  simp [readBytes, List.take_left, List.drop_left]

theorem readIntLE_toLE (k n : Nat) (r : List Nat) (h : n < 256 ^ k) :
    readIntLE k (toLE k n ++ r) = some (n, r) := by
  simp [readIntLE, readBytes_exact k _ r (toLE_length k n), fromLE_toLE k n h]

theorem intLE_eq (k n : Nat) (h : n < 256 ^ k) : intLE k n = some (toLE k n) := by
  simp [intLE, h]

theorem guidShuffle_length (b : List Nat) (h : b.length = 16) :
    (guidShuffle b).length = 16 := by
  simp [guidShuffle, h]

theorem guidShuffle_invol (b : List Nat) (hb : b.length = 16) :
    guidShuffle (guidShuffle b) = b := by
  rcases b with _ | ⟨a0, b⟩; · simp at hb
  rcases b with _ | ⟨a1, b⟩; · simp at hb
  rcases b with _ | ⟨a2, b⟩; · simp at hb
  rcases b with _ | ⟨a3, b⟩; · simp at hb
  rcases b with _ | ⟨a4, b⟩; · simp at hb
  rcases b with _ | ⟨a5, b⟩; · simp at hb
  rcases b with _ | ⟨a6, b⟩; · simp at hb
  rcases b with _ | ⟨a7, b⟩; · simp at hb
  rcases b with _ | ⟨a8, b⟩; · simp at hb
  rcases b with _ | ⟨a9, b⟩; · simp at hb
  rcases b with _ | ⟨a10, b⟩; · simp at hb
  rcases b with _ | ⟨a11, b⟩; · simp at hb
  rcases b with _ | ⟨a12, b⟩; · simp at hb
  rcases b with _ | ⟨a13, b⟩; · simp at hb
  rcases b with _ | ⟨a14, b⟩; · simp at hb
  rcases b with _ | ⟨a15, b⟩; · simp at hb
  rcases b with _ | ⟨a16, b⟩
  · rfl
  · simp at hb

theorem guidBuild_eq (u : List Nat) (h : u.length = 16) :
    guidBuild u = some (guidShuffle u) := by
  simp [guidBuild, guidBytesLE, guidShuffle_length u h]

theorem guidParse_shuffle (u : List Nat) (r : List Nat) (h : u.length = 16) :
    guidParse (guidShuffle u ++ r) = some (u, r) := by
  simp [guidParse, readBytes_exact 16 _ r (guidShuffle_length u h),
        guidFromBytesLE, guidShuffle_length u h, guidShuffle_invol u h]

/-! ### Claim theorems -/

/-- C9: for every 16-byte buffer `b`, re-encoding the identifier decoded from
`b` by `GUIDAdapter` (`uuid.UUID(bytes_le=b)` then `.bytes_le`) returns
exactly `b`: the mixed-endian layout is a bijection on 16-byte buffers. -/
theorem guid_encode_decode_id (b : List Nat) (h : b.length = 16) :
    (guidFromBytesLE b).map guidBytesLE = some b := by
  simp [guidFromBytesLE, h, guidBytesLE, guidShuffle_invol b h]

/-- C9 witness: the identifier codec round-trips the concrete buffer
`00 01 02 ... 0F` (the spec's scenario 2). -/
theorem guid_encode_decode_id_witness :
    (guidFromBytesLE [0, 1, 2, 3, 4, 5, 6, 7, 8, 9, 10, 11, 12, 13, 14, 15]).map
      guidBytesLE = some [0, 1, 2, 3, 4, 5, 6, 7, 8, 9, 10, 11, 12, 13, 14, 15] :=
  guid_encode_decode_id [0, 1, 2, 3, 4, 5, 6, 7, 8, 9, 10, 11, 12, 13, 14, 15]
    (by decide)

theorem shl3_and_e0 : ∀ g, g < 256 → ((g <<< 3) &&& 0xE0) = g / 4 % 8 * 32 := by
  decide

theorem shr3_and_1f : ∀ b, b < 256 → ((b >>> 3) &&& 0x1F) = b / 8 := by
  decide

theorem and_f8 : ∀ r, r < 256 → (r &&& 0xF8) = r / 8 * 8 := by
  decide

theorem shr5_and_07 : ∀ g, g < 256 → (((g >>> 2) >>> 3) &&& 0x07) = g / 32 := by
  decide

theorem lor_add_32 : ∀ x, x < 8 → ∀ y, y < 32 → (x * 32 ||| y) = x * 32 + y := by
  decide

theorem lor_add_8 : ∀ x, x < 32 → ∀ y, y < 8 → (x * 8 ||| y) = x * 8 + y := by
  decide

/-- C6: for every pixel with 8-bit components, the two bytes
`MeTileAdapter._encode` emits are the little-endian halves of the 16-bit
value whose most significant 5 bits are the top 5 bits of red
(`r / 8 · 2^11`), whose middle 6 bits are the top 6 bits of green
(`g / 4 · 2^5`) and whose least significant 5 bits are the top 5 bits of
blue (`b / 8`); in particular the pixel `(255, 0, 0)` is stored as the two
bytes `0x00, 0xF8`. -/
theorem mepixel_pack_rgb565 (r g b : Nat) (hr : r < 256) (hg : g < 256)
    (hb : b < 256) :
    (mePixelPack r g b).1 + 256 * (mePixelPack r g b).2
        = r / 8 * 2048 + g / 4 * 32 + b / 8
      ∧ mePixelPack 255 0 0 = (0x00, 0xF8) := by
  refine ⟨?_, by decide⟩
  have e1 : (mePixelPack r g b).1 = g / 4 % 8 * 32 + b / 8 := by
    show ((g <<< 3) &&& 0xE0) ||| ((b >>> 3) &&& 0x1F) = _
    rw [shl3_and_e0 g hg, shr3_and_1f b hb]
    exact lor_add_32 (g / 4 % 8) (Nat.mod_lt _ (by omega)) (b / 8) (by omega)
  have e2 : (mePixelPack r g b).2 = r / 8 * 8 + g / 32 := by
    show (r &&& 0xF8) ||| (((g >>> 2) >>> 3) &&& 0x07) = _
    rw [and_f8 r hr, shr5_and_07 g hg]
    exact lor_add_8 (r / 8) (by omega) (g / 32) (by omega)
  rw [e1, e2]
  omega

/-- C6 witness: the theorem applied to the concrete pixel `(255, 0, 0)`. -/
theorem mepixel_pack_rgb565_witness :
    (mePixelPack 255 0 0).1 + 256 * (mePixelPack 255 0 0).2
        = 255 / 8 * 2048 + 0 / 4 * 32 + 0 / 8
      ∧ mePixelPack 255 0 0 = (0x00, 0xF8) :=
  mepixel_pack_rgb565 255 0 0 (by decide) (by decide) (by decide)

/-- C2 counterexample: the 16-bit mask `64` sets only a bit outside every
named `TileSettings` flag; decoding it and re-encoding the decoded container
yields `0`, not `64`, so not every bit of the stored integer survives the
decode→encode round trip. -/
theorem flags_unknown_bit_dropped :
    flagsEnumEncode (flagsEnumDecode 64) ≠ 64 := by decide

theorem and_single_bit : ∀ k m : Nat, m &&& 2 ^ k = m / 2 ^ k % 2 * 2 ^ k := by
  intro k
  induction k with
  | zero => intro m; simp [Nat.and_one_is_mod m]
  | succ k ih =>
      intro m
      have hsplit : m &&& 2 ^ (k + 1)
          = 2 * ((m &&& 2 ^ (k + 1)) / 2) + (m &&& 2 ^ (k + 1)) % 2 := by omega
      have hdiv : (m &&& 2 ^ (k + 1)) / 2 = m / 2 &&& 2 ^ k := by
        have := @Nat.and_div_two m (2 ^ (k + 1))
        simpa [Nat.pow_succ, Nat.mul_div_cancel] using this
      have hmod : (m &&& 2 ^ (k + 1)) % 2 = 0 := by
        have h2 : 2 ^ (k + 1) % 2 = 0 := by
          simp [Nat.pow_succ, Nat.mul_mod_left]
        rcases Nat.mod_two_eq_zero_or_one (m &&& 2 ^ (k + 1)) with h | h
        · exact h
        · rw [Nat.and_mod_two_eq_one] at h
          omega
      rw [hsplit, hdiv, hmod, ih (m / 2)]
      have : m / 2 / 2 ^ k = m / 2 ^ (k + 1) := by
        rw [Nat.div_div_eq_div_mul, ← Nat.pow_succ']
      rw [this]
      ring

theorem flags_decode_mod (m : Nat) :
    flagsEnumDecode m = flagsEnumDecode (m % 64) := by
  have cond : ∀ k : Nat, k < 6 →
      (m &&& 2 ^ k == 2 ^ k) = (m % 64 &&& 2 ^ k == 2 ^ k) := by
    intro k hk
    rw [Bool.eq_iff_iff, beq_iff_eq, beq_iff_eq, and_single_bit, and_single_bit]
    interval_cases k <;> [skip; skip; skip; skip; skip; skip] <;> omega
  have c0 : (m &&& 1 == 1) = (m % 64 &&& 1 == 1) := by
    simpa using cond 0 (by omega)
  have c1 : (m &&& 2 == 2) = (m % 64 &&& 2 == 2) := by
    simpa using cond 1 (by omega)
  have c2 : (m &&& 4 == 4) = (m % 64 &&& 4 == 4) := by
    simpa using cond 2 (by omega)
  have c3 : (m &&& 8 == 8) = (m % 64 &&& 8 == 8) := by
    simpa using cond 3 (by omega)
  have c4 : (m &&& 16 == 16) = (m % 64 &&& 16 == 16) := by
    simpa using cond 4 (by omega)
  have c5 : (m &&& 32 == 32) = (m % 64 &&& 32 == 32) := by
    simpa using cond 5 (by omega)
  simp only [flagsEnumDecode, tileSettingsFlags, List.map, flagValue]
  rw [c0, c1, c2, c3, c4, c5]

theorem flags_encDec_small : ∀ lo, lo < 64 →
    flagsEnumEncode (flagsEnumDecode lo) = lo := by
  decide

/-- C2 amended: for every 16-bit mask `m`, re-encoding the decoded
`FlagsEnum` container returns `m &&& 63`, the mask restricted to the union of
the named `TileSettings` bits: recognized bits survive the round trip and
decoding never fails on unknown bits (`flagsEnumDecode` is total), but
unrecognized bits are dropped rather than preserved. -/
theorem flags_encode_decode_masks (m : Nat) (_hm : m < 65536) :
    flagsEnumEncode (flagsEnumDecode m) = m &&& 63 := by
  rw [flags_decode_mod, flags_encDec_small (m % 64) (Nat.mod_lt _ (by omega)),
      show (63 : Nat) = 2 ^ 6 - 1 from rfl, Nat.and_pow_two_sub_one_eq_mod]

/-- C2 witness: the mask `3` (`EnableNotification | EnableBadging`) survives
the round trip. -/
theorem flags_encode_decode_masks_witness :
    flagsEnumEncode (flagsEnumDecode 3) = 3 &&& 63 :=
  flags_encode_decode_masks 3 (by decide)

/-- C4: the timestamp codec does not round-trip at 100 ns (or even 1 µs)
precision.  At 2020-01-01T00:00:00.000002Z, 13222310400000002 µs past the
epoch, the exact tick count would be 132223104000000020, but the float
arithmetic of `_encode` (`total_seconds()` has a 2^-19 s ulp and the product
a 16-tick ulp at this magnitude) yields 132223104000000016 ticks, and
`_decode` returns the microsecond offset 13222310400000001 — one microsecond
early, so `decode(encode(t)) ≠ t`. -/
theorem bandtime_float_roundtrip_fails :
    bandTimeEncode 13222310400000002 = some 132223104000000016
      ∧ bandDecodeTicks 132223104000000016 = some 13222310400000001
      ∧ (13222310400000001 : Nat) ≠ 13222310400000002 := by
  refine ⟨by decide, by decide, by decide⟩

/-- C5 counterexample: the all-ones 64-bit tick count does not decode —
`EPOCH + timedelta(microseconds=(2^64 - 1) // 10)` passes `datetime.max` and
raises `OverflowError` — so decode is not a total function over the 64-bit
domain. -/
theorem bandtime_decode_not_total :
    bandDecodeTicks (2 ^ 64 - 1) = none := by decide

/-- C5 amended: over the datetime domain, `BandTime._encode` fails exactly
when the value precedes the epoch (the too-far-in-the-future guard compares
against `datetime.max` and is unreachable), and a 64-bit tick count `t`
decodes successfully exactly when `t / 10` microseconds stays within
`datetime.max`; decode therefore is not total over the full 64-bit domain. -/
theorem bandtime_encode_decode_domains (us : Int) (_hlo : MINUS ≤ us)
    (hhi : us ≤ (MAXUS : Int)) :
    ((bandTimeEncode us).isSome ↔ 0 ≤ us)
      ∧ (∀ t : Nat, t < 2 ^ 64 →
          ((bandDecodeTicks t).isSome ↔ t / 10 ≤ MAXUS)) := by
  constructor
  · unfold bandTimeEncode
    split_ifs with h1 h2
    · exact absurd h1 (by omega)
    · simp
      omega
    · simp
      omega
  · intro t _ht
    unfold bandDecodeTicks
    split_ifs with h <;> simp [h]

/-- C5 witness: at one microsecond before the epoch the encode fails, and the
decode-domain characterisation holds. -/
theorem bandtime_encode_decode_domains_witness :
    ((bandTimeEncode (-1)).isSome ↔ 0 ≤ (-1 : Int))
      ∧ (∀ t : Nat, t < 2 ^ 64 →
          ((bandDecodeTicks t).isSome ↔ t / 10 ≤ MAXUS)) :=
  bandtime_encode_decode_domains (-1) (by decide) (by decide)

/-- C10: `BandSystemDateTimeAdapter._decode` builds the datetime from
`Year`, `Month`, `Day`, `Hour`, `Minute`, `Second` and `Milliseconds` only:
two `BandSystemTime` values that differ only in `DayOfWeek` decode to the
same timestamp (the field is derived on encode and ignored on decode). -/
theorem systemtime_decode_ignores_dayofweek (s : BandSystemTime) (d : Nat) :
    bandSystemDateTimeDecode { s with DayOfWeek := d }
      = bandSystemDateTimeDecode s := by
  cases s
  rfl

/-- C8: `ArgbAdapter._encode` produces no buffer at all, let alone the 4-byte
(alpha, red, green, blue) one the claim describes: it builds `ARGB.struct`
from `vars(ARGB)` — the class namespace, which lacks `red`, `green` and
`blue` — so the build raises for every value and `decode(encode(v))` cannot
return `v`.  The decode direction alone follows the declared (alpha, red,
green, blue) field order. -/
theorem argb_encode_always_fails :
    (∀ v : ARGB, argbAdapterEncode v = none)
      ∧ argbAdapterDecode [1, 2, 3, 4] = some ⟨2, 3, 4, 1⟩ :=
  ⟨fun _ => rfl, rfl⟩

/-- C1: `TileData.build` fails for every `Tile` record: the `ThemeColor`
field's `ArgbAdapter._encode` raises unconditionally (see
`argbAdapterEncode`), so no encoded buffer exists and `decode(encode(r)) = r`
holds for no record.  (Independently, the `Padded` total
`16 + 4 + 4 + 2 + 2 + 60 = 88` omits the 16 bytes of `OwnerGUID`, so even
with the color build repaired a name over 22 code units could not fit.) -/
theorem tile_encode_always_fails (r : TileRec) : tileEncode r = none := by
  unfold tileEncode
  cases hg : guidBuild r.GUID <;> cases ho : intLE 4 r.Order <;> rfl

theorem intLE_length {k n : Nat} {l : List Nat} (h : intLE k n = some l) :
    l.length = k := by
  unfold intLE at h
  split at h
  · cases h
    exact toLE_length k n
  · cases h

theorem paddedBuild_length {n : Nat} {content : Option (List Nat)}
    {l : List Nat} (h : paddedBuild n content = some l) : l.length = n := by
  unfold paddedBuild at h
  cases content with
  | none => cases h
  | some c =>
      simp only [Option.some_bind] at h
      split at h
      · cases h
        simp
        omega
      · cases h

theorem bandFieldBuild_length {us : Int} {l : List Nat}
    (h : bandFieldBuild us = some l) : l.length = 8 := by
  unfold bandFieldBuild at h
  cases he : bandTimeEncode us with
  | none => rw [he] at h; cases h
  | some t => rw [he, Option.some_bind] at h; exact intLE_length h

theorem guidBuild_length {u : List Nat} {l : List Nat}
    (h : guidBuild u = some l) : l.length = 16 := by
  unfold guidBuild at h
  split at h
  · cases h
    assumption
  · cases h

/-- C3 counterexample: an 89-byte buffer (88 valid `Tile` bytes plus one
trailing byte) decodes successfully — construct's `parse` does not require
the stream to be exhausted — refuting "decode only accepts buffers of exactly
the declared size". -/
theorem tile_decode_overlong_accepted :
    (tileDecode (List.replicate 88 0 ++ [171])).isSome = true := by decide

/-- C3 amended: encode, when it succeeds, emits exactly the declared total
size — `SystemTime` 16 bytes, `UserProfile` 282, `Profile` 397 — and a
`Tile` buffer one byte short of its declared 88 fails decode with no partial
record; but `Tile` encode never succeeds at all (its `ThemeColor` build
always raises), and decode accepts buffers *longer* than the declared size,
ignoring the trailing bytes, so "decode only accepts exactly the declared
size" fails. -/
theorem record_sizes_amended :
    (∀ (s : BandSystemTime) (l : List Nat),
        bandSystemTimeBuild s = some l → l.length = 16)
      ∧ (∀ (r : UserProfileRec) (l : List Nat),
          userProfileEncode r = some l → l.length = 282)
      ∧ (∀ (r : ProfileRec) (l : List Nat),
          profileEncode r = some l → l.length = 397)
      ∧ (∀ r : TileRec, tileEncode r = none)
      ∧ tileDecode (List.replicate 87 0) = none
      ∧ (tileDecode (List.replicate 89 0)).isSome = true := by
  refine ⟨?_, ?_, ?_, tile_encode_always_fails, by decide, by decide⟩
  · intro s l h
    simp only [bandSystemTimeBuild, Option.bind_eq_some, Option.map_eq_some']
      at h
    obtain ⟨b1, h1, h⟩ := h
    obtain ⟨b2, h2, h⟩ := h
    obtain ⟨b3, h3, h⟩ := h
    obtain ⟨b4, h4, h⟩ := h
    obtain ⟨b5, h5, h⟩ := h
    obtain ⟨b6, h6, h⟩ := h
    obtain ⟨b7, h7, h⟩ := h
    obtain ⟨b8, h8, h⟩ := h
    subst h
    simp [intLE_length h1, intLE_length h2, intLE_length h3, intLE_length h4,
          intLE_length h5, intLE_length h6, intLE_length h7, intLE_length h8]
  · intro r l h
    simp only [userProfileEncode, Option.bind_eq_some, Option.map_eq_some']
      at h
    obtain ⟨b1, h1, h⟩ := h
    obtain ⟨b2, h2, h⟩ := h
    obtain ⟨b3, h3, h⟩ := h
    obtain ⟨b4, h4, h⟩ := h
    subst h
    have h4len : b4.length = 256 := by
      split at h4
      · cases h4
        assumption
      · cases h4
    simp [intLE_length h1, bandFieldBuild_length h2, guidBuild_length h3,
          h4len]
  · intro r l h
    exact paddedBuild_length h

theorem utf16leBytes_length (us : List Nat) :
    (utf16leBytes us).length = 2 * us.length := by
  induction us with
  | nil => rfl
  | cons u us ih => simp [utf16leBytes, ih]; omega

theorem scalarUnit_lt {u : Nat} (h : scalarUnit u = true) : u < 65536 := by
  unfold scalarUnit at h
  simp at h
  omega

theorem bytesToUnits_utf16 (us : List Nat)
    (h : ∀ u ∈ us, u < 65536) :
    bytesToUnits (utf16leBytes us) = some us := by
  induction us with
  | nil => rfl
  | cons u us ih =>
      have hu : u < 65536 := h u (by simp)
      have : u % 256 + 256 * (u / 256 % 256) = u := by omega
      simp [utf16leBytes, bytesToUnits, ih (fun v hv => h v (by simp [hv])),
            this]

theorem utf16leDecode_utf16 (us : List Nat)
    (h : us.all scalarUnit = true) :
    utf16leDecode (utf16leBytes us) = some us := by
  have hlt : ∀ u ∈ us, u < 65536 := by
    intro u hu
    exact scalarUnit_lt (by simpa using List.all_eq_true.mp h u hu)
  unfold utf16leDecode
  rw [bytesToUnits_utf16 us hlt, Option.some_bind, if_pos h]

theorem utf16leBytes_concat (us : List Nat) (u : Nat) :
    utf16leBytes (us ++ [u])
      = utf16leBytes us ++ [u % 256, u / 256 % 256] := by
  induction us with
  | nil => rfl
  | cons v us ih => simp [utf16leBytes, ih]

theorem stripRev_zeros : ∀ (k : Nat) (l : List Nat),
    stripNullPairsRev (List.replicate (2 * k) 0 ++ l) = stripNullPairsRev l := by
  intro k
  induction k with
  | zero => intro l; rfl
  | succ k ih =>
      intro l
      have h2 : 2 * (k + 1) = (2 * k) + 1 + 1 := by omega
      rw [h2, List.replicate_succ' (2 * k + 1), List.replicate_succ' (2 * k)]
      have : List.replicate (2 * k) 0 ++ [0] ++ [0] ++ l
          = List.replicate (2 * k) 0 ++ (0 :: 0 :: l) := by simp
      rw [this, ih]
      rfl

theorem stripRev_keep (a b : Nat) (l : List Nat) (h : ¬(a = 0 ∧ b = 0)) :
    stripNullPairsRev (a :: b :: l) = a :: b :: l := by
  match a, b with
  | 0, 0 => exact absurd ⟨rfl, rfl⟩ h
  | 0, b + 1 => rfl
  | a + 1, b => rfl

theorem stripNullPairs_padded (us : List Nat) (k : Nat)
    (hok : us.all scalarUnit = true) (hlast : us.getLastD 1 ≠ 0) :
    stripNullPairs (utf16leBytes us ++ List.replicate (2 * k) 0)
      = utf16leBytes us := by
  unfold stripNullPairs
  rw [List.reverse_append, List.reverse_replicate, stripRev_zeros]
  rcases List.eq_nil_or_concat us with hnil | ⟨L, u, hcat⟩
  · subst hnil
    rfl
  · have hu0 : u ≠ 0 := by
      rw [hcat] at hlast
      simpa [List.getLastD_concat] using hlast
    have hu : u < 65536 := by
      have := List.all_eq_true.mp hok u (by simp [hcat])
      exact scalarUnit_lt (by simpa using this)
    rw [List.concat_eq_append] at hcat
    subst hcat
    rw [utf16leBytes_concat, List.reverse_append]
    have hk : ¬(u / 256 % 256 = 0 ∧ u % 256 = 0) := by omega
    have hinner : [u % 256, u / 256 % 256].reverse ++ (utf16leBytes L).reverse
        = u / 256 % 256 :: u % 256 :: (utf16leBytes L).reverse := rfl
    rw [hinner, stripRev_keep _ _ _ hk]
    simp

theorem paddedString_rt (capB : Nat) (us : List Nat)
    (hok : us.all scalarUnit = true) (hlast : us.getLastD 1 ≠ 0)
    (hfit : 2 * us.length ≤ capB) (heven : capB % 2 = 0) :
    ∃ bs, paddedStringBuild capB us = some bs ∧ bs.length = capB ∧
      ∀ r, paddedStringParse capB (bs ++ r) = some (us, r) := by
  have hxlen := utf16leBytes_length us
  refine ⟨utf16leBytes us
      ++ List.replicate (capB - (utf16leBytes us).length) 0, ?_, ?_, ?_⟩
  · unfold paddedStringBuild
    rw [hok]
    simp only [if_true]
    rw [if_pos (by omega)]
  · simp
    omega
  · intro r
    unfold paddedStringParse
    rw [readBytes_exact capB _ r (by simp; omega), Option.some_bind]
    have hpad : capB - (utf16leBytes us).length
        = 2 * ((capB - (utf16leBytes us).length) / 2) := by omega
    rw [hpad, stripNullPairs_padded us _ hok hlast,
        utf16leDecode_utf16 us hok]
    rfl

theorem bandField_rt (us : Int) (h : bandRoundTripsB us = true) :
    ∃ bs, bandFieldBuild us = some bs ∧ bs.length = 8 ∧
      ∀ r, bandFieldParse (bs ++ r) = some (us, r) := by
  unfold bandRoundTripsB at h
  cases he : bandTimeEncode us with
  | none => rw [he] at h; simp at h
  | some t =>
      rw [he] at h
      simp only [Bool.and_eq_true, decide_eq_true_eq] at h
      obtain ⟨h0, hlt, hdec⟩ := h
      have htr : t < 256 ^ 8 := by
        have : (256 : Nat) ^ 8 = 2 ^ 64 := by norm_num
        omega
      refine ⟨toLE 8 t, ?_, toLE_length 8 t, ?_⟩
      · unfold bandFieldBuild
        rw [he, Option.some_bind]
        exact intLE_eq 8 t htr
      · intro r
        unfold bandFieldParse
        rw [readBytes_exact 8 _ r (toLE_length 8 t), Option.some_bind,
            fromLE_toLE 8 t htr, hdec]
        simp [Int.toNat_of_nonneg h0]

theorem gender_rt (g : Nat) (h : g = 0 ∨ g = 1) :
    genderBuild g = some [g] ∧ ∀ r, genderParse ([g] ++ r) = some (g, r) := by
  constructor
  · unfold genderBuild
    rw [if_pos h]
  · intro r
    unfold genderParse readIntLE
    rw [readBytes_exact 1 [g] r rfl]
    simp [fromLE, if_pos h]

theorem byteField_rt (v : Nat) (h : v < 256) :
    intLE 1 v = some [v] ∧ ∀ r, readIntLE 1 ([v] ++ r) = some (v, r) := by
  have h1 : toLE 1 v = [v] := by
    simp [toLE, Nat.mod_eq_of_lt h]
  constructor
  · rw [intLE_eq 1 v (by simpa using h), h1]
  · intro r
    have := readIntLE_toLE 1 v r (by simpa using h)
    rwa [h1] at this

theorem flag_rt (b : Bool) :
    ∀ r, flagParse (flagBuild b ++ r) = some (b, r) := by
  intro r
  cases b
  · show flagParse ([0] ++ r) = some (false, r)
    unfold flagParse readIntLE
    rw [readBytes_exact 1 [0] r rfl]
    simp [fromLE]
  · show flagParse ([1] ++ r) = some (true, r)
    unfold flagParse readIntLE
    rw [readBytes_exact 1 [1] r rfl]
    simp [fromLE]

theorem ifField_rt {α : Type} (p : Parser α) (build : α → Option (List Nat))
    (v : α) (bs : List Nat) (hb : build v = some bs)
    (hp : ∀ r, p (bs ++ r) = some (v, r)) :
    ifBuild true (some v) build = some bs
      ∧ ∀ r, ifParse true p (bs ++ r) = some (some v, r) := by
  constructor
  · simpa [ifBuild] using hb
  · intro r
    simp [ifParse, hp r]

/-- A text field value fitting a capacity of `capU` UTF-16 code units: BMP
scalars only, within capacity, and no trailing NUL unit (which the
`NullStripped` parse would eat). -/
def strOkB (capU : Nat) (us : List Nat) : Bool :=
  us.all scalarUnit && decide (us.length ≤ capU) && (us.getLastD 1 != 0)

/-- A present gated timestamp that survives the tick conversion. -/
def bandRTOptB : Option Int → Bool
  | some v => bandRoundTripsB v
  | none => false

/-- A present gated byte value. -/
def byteOptB : Option Nat → Bool
  | some v => decide (v < 256)
  | none => false

/-- A `Profile` record whose field values are exactly representable by their
codecs and whose timestamps survive the float-based tick conversion; the nine
gated fields are present, and `ReservedData` holds exactly the 255 bytes that
fill the declared 397 (its bytes are echoed verbatim, so no bound on them is
needed). -/
def profileValidB (r : ProfileRec) : Bool :=
  decide (r.Version < 65536) && bandRoundTripsB r.LastSync
    && decide (r.UserGUID.length = 16) && bandRoundTripsB r.Birthday
    && decide (r.Weight_g < 4294967296) && decide (r.Height_mm < 65536)
    && (r.Gender == 0 || r.Gender == 1)
    && strOkB 16 r.DeviceName && strOkB 6 r.LocaleName
    && decide (r.LocaleId < 65536) && decide (r.Language < 65536)
    && strOkB 1 r.DateSeparator && strOkB 1 r.NumberSeparator
    && strOkB 1 r.DecimalSeparator
    && decide (r.TimeFormat < 256) && decide (r.DateFormat < 256)
    && decide (r.DistanceShortUnits < 256) && decide (r.DistanceLongUnits < 256)
    && decide (r.MassUnits < 256) && decide (r.VolumeUnits < 256)
    && decide (r.EnergyUnits < 256) && decide (r.TemperatureUnits < 256)
    && decide (r.RunDisplayUnits < 256)
    && bandRTOptB r.HwagChangeTime && byteOptB r.HwagChangeAgent
    && bandRTOptB r.DeviceNameChangeTime && byteOptB r.DeviceNameChangeAgent
    && bandRTOptB r.LocaleSettingsChangeTime
    && byteOptB r.LocaleSettingsChangeAgent
    && bandRTOptB r.LanguageChangeTime && byteOptB r.LanguageChangeAgent
    && byteOptB r.MaxHR
    && decide (r.ReservedData.length = 255)

theorem option_some_bind {α β : Type} (x : α) (f : α → Option β) :
    (some x >>= f) = f x := rfl

theorem option_bind_eq_some {α β : Type} {x : Option α} {f : α → Option β}
    {b : β} : (x >>= f) = some b ↔ ∃ a, x = some a ∧ f a = some b := by
  cases x <;> simp

theorem chunkA_rt (r : ProfileRec) (h1 : r.Version < 65536)
    (h2 : bandRoundTripsB r.LastSync = true) (h3 : r.UserGUID.length = 16)
    (h4 : bandRoundTripsB r.Birthday = true) (h5 : r.Weight_g < 4294967296)
    (h6 : r.Height_mm < 65536) :
    ∃ bs, profileBuildA r = some bs ∧ bs.length = 40 ∧
      ∀ rest, profileParseA (bs ++ rest)
        = some (ProfileA.mk r.Version r.LastSync r.UserGUID r.Birthday
            r.Weight_g r.Height_mm, rest) := by
  obtain ⟨b2, hb2, hl2, hp2⟩ := bandField_rt r.LastSync h2
  obtain ⟨b4, hb4, hl4, hp4⟩ := bandField_rt r.Birthday h4
  refine ⟨toLE 2 r.Version ++ (b2 ++ (guidShuffle r.UserGUID ++ (b4 ++
      (toLE 4 r.Weight_g ++ toLE 2 r.Height_mm)))), ?_, ?_, ?_⟩
  · unfold profileBuildA
    rw [intLE_eq 2 r.Version (by norm_num; omega), option_some_bind, hb2,
        option_some_bind, guidBuild_eq r.UserGUID h3, option_some_bind, hb4,
        option_some_bind, intLE_eq 4 r.Weight_g (by norm_num; omega),
        option_some_bind, intLE_eq 2 r.Height_mm (by norm_num; omega),
        option_some_bind]
    rfl
  · simp [toLE_length, hl2, hl4, guidShuffle_length r.UserGUID h3]
  · intro rest
    unfold profileParseA
    simp only [List.append_assoc]
    rw [readIntLE_toLE 2 r.Version _ (by norm_num; omega), option_some_bind,
        hp2, option_some_bind, guidParse_shuffle r.UserGUID _ h3,
        option_some_bind, hp4, option_some_bind,
        readIntLE_toLE 4 r.Weight_g _ (by norm_num; omega), option_some_bind,
        readIntLE_toLE 2 r.Height_mm _ (by norm_num; omega), option_some_bind]
    rfl

theorem chunkB_rt (r : ProfileRec) (h1 : r.Gender = 0 ∨ r.Gender = 1)
    (h2 : strOkB 16 r.DeviceName = true) (h3 : strOkB 6 r.LocaleName = true)
    (h4 : r.LocaleId < 65536) (h5 : r.Language < 65536) :
    ∃ bs, profileBuildB r = some bs ∧ bs.length = 49 ∧
      ∀ rest, profileParseB (bs ++ rest)
        = some (ProfileB.mk r.Gender r.DeviceName r.LocaleName r.LocaleId
            r.Language, rest) := by
  obtain ⟨hg, hgp⟩ := gender_rt r.Gender h1
  simp only [strOkB, Bool.and_eq_true, decide_eq_true_eq, bne_iff_ne,
    ne_eq] at h2 h3
  obtain ⟨⟨h2a, h2b⟩, h2c⟩ := h2
  obtain ⟨⟨h3a, h3b⟩, h3c⟩ := h3
  obtain ⟨bD, hbD, hlD, hpD⟩ :=
    paddedString_rt 32 r.DeviceName h2a h2c (by omega) (by norm_num)
  obtain ⟨bL, hbL, hlL, hpL⟩ :=
    paddedString_rt 12 r.LocaleName h3a h3c (by omega) (by norm_num)
  refine ⟨[r.Gender] ++ (bD ++ (bL ++ (toLE 2 r.LocaleId ++
      toLE 2 r.Language))), ?_, ?_, ?_⟩
  · unfold profileBuildB enumFieldBuild
    rw [hg, option_some_bind, hbD, option_some_bind, hbL, option_some_bind,
        intLE_eq 2 r.LocaleId (by norm_num; omega), option_some_bind,
        intLE_eq 2 r.Language (by norm_num; omega), option_some_bind]
    rfl
  · simp [toLE_length, hlD, hlL]
  · intro rest
    unfold profileParseB
    simp only [List.append_assoc]
    rw [hgp, option_some_bind, hpD, option_some_bind, hpL, option_some_bind]
    unfold enumFieldParse
    rw [readIntLE_toLE 2 r.LocaleId _ (by norm_num; omega), option_some_bind,
        readIntLE_toLE 2 r.Language _ (by norm_num; omega), option_some_bind]
    rfl

theorem chunkC_rt (r : ProfileRec)
    (h1 : strOkB 1 r.DateSeparator = true)
    (h2 : strOkB 1 r.NumberSeparator = true)
    (h3 : strOkB 1 r.DecimalSeparator = true)
    (h4 : r.TimeFormat < 256) (h5 : r.DateFormat < 256) :
    ∃ bs, profileBuildC r = some bs ∧ bs.length = 8 ∧
      ∀ rest, profileParseC (bs ++ rest)
        = some (ProfileC.mk r.DateSeparator r.NumberSeparator
            r.DecimalSeparator r.TimeFormat r.DateFormat, rest) := by
  simp only [strOkB, Bool.and_eq_true, decide_eq_true_eq, bne_iff_ne,
    ne_eq] at h1 h2 h3
  obtain ⟨⟨h1a, h1b⟩, h1c⟩ := h1
  obtain ⟨⟨h2a, h2b⟩, h2c⟩ := h2
  obtain ⟨⟨h3a, h3b⟩, h3c⟩ := h3
  obtain ⟨b1, hb1, hl1, hp1⟩ :=
    paddedString_rt 2 r.DateSeparator h1a h1c (by omega) (by norm_num)
  obtain ⟨b2, hb2, hl2, hp2⟩ :=
    paddedString_rt 2 r.NumberSeparator h2a h2c (by omega) (by norm_num)
  obtain ⟨b3, hb3, hl3, hp3⟩ :=
    paddedString_rt 2 r.DecimalSeparator h3a h3c (by omega) (by norm_num)
  obtain ⟨hb4, hp4⟩ := byteField_rt r.TimeFormat h4
  obtain ⟨hb5, hp5⟩ := byteField_rt r.DateFormat h5
  refine ⟨b1 ++ (b2 ++ (b3 ++ ([r.TimeFormat] ++ [r.DateFormat]))),
    ?_, ?_, ?_⟩
  · unfold profileBuildC enumFieldBuild
    rw [hb1, option_some_bind, hb2, option_some_bind, hb3, option_some_bind,
        hb4, option_some_bind, hb5, option_some_bind]
    rfl
  · simp [hl1, hl2, hl3]
  · intro rest
    unfold profileParseC enumFieldParse
    simp only [List.append_assoc]
    rw [hp1, option_some_bind, hp2, option_some_bind, hp3, option_some_bind,
        hp4, option_some_bind, hp5, option_some_bind]
    rfl

theorem chunkD_rt (r : ProfileRec)
    (h1 : r.DistanceShortUnits < 256) (h2 : r.DistanceLongUnits < 256)
    (h3 : r.MassUnits < 256) (h4 : r.VolumeUnits < 256)
    (h5 : r.EnergyUnits < 256) (h6 : r.TemperatureUnits < 256)
    (h7 : r.RunDisplayUnits < 256) :
    ∃ bs, profileBuildD r = some bs ∧ bs.length = 8 ∧
      ∀ rest, profileParseD (bs ++ rest)
        = some (ProfileD.mk r.DistanceShortUnits r.DistanceLongUnits
            r.MassUnits r.VolumeUnits r.EnergyUnits r.TemperatureUnits
            r.RunDisplayUnits r.Telemetry, rest) := by
  obtain ⟨hb1, hp1⟩ := byteField_rt r.DistanceShortUnits h1
  obtain ⟨hb2, hp2⟩ := byteField_rt r.DistanceLongUnits h2
  obtain ⟨hb3, hp3⟩ := byteField_rt r.MassUnits h3
  obtain ⟨hb4, hp4⟩ := byteField_rt r.VolumeUnits h4
  obtain ⟨hb5, hp5⟩ := byteField_rt r.EnergyUnits h5
  obtain ⟨hb6, hp6⟩ := byteField_rt r.TemperatureUnits h6
  obtain ⟨hb7, hp7⟩ := byteField_rt r.RunDisplayUnits h7
  refine ⟨[r.DistanceShortUnits] ++ ([r.DistanceLongUnits] ++ ([r.MassUnits]
      ++ ([r.VolumeUnits] ++ ([r.EnergyUnits] ++ ([r.TemperatureUnits]
      ++ ([r.RunDisplayUnits] ++ flagBuild r.Telemetry)))))), ?_, ?_, ?_⟩
  · unfold profileBuildD enumFieldBuild
    rw [hb1, option_some_bind, hb2, option_some_bind, hb3, option_some_bind,
        hb4, option_some_bind, hb5, option_some_bind, hb6, option_some_bind,
        hb7, option_some_bind]
    rfl
  · cases r.Telemetry <;> simp [flagBuild]
  · intro rest
    unfold profileParseD enumFieldParse
    simp only [List.append_assoc]
    rw [hp1, option_some_bind, hp2, option_some_bind, hp3, option_some_bind,
        hp4, option_some_bind, hp5, option_some_bind, hp6, option_some_bind,
        hp7, option_some_bind, flag_rt r.Telemetry, option_some_bind]
    rfl

theorem chunkG1_rt (r : ProfileRec) (t1 t2 : Int) (a1 a2 : Nat)
    (hver : 2 ≤ r.Version)
    (h1 : r.HwagChangeTime = some t1) (hrt1 : bandRoundTripsB t1 = true)
    (h2 : r.HwagChangeAgent = some a1) (ha1 : a1 < 256)
    (h3 : r.DeviceNameChangeTime = some t2) (hrt2 : bandRoundTripsB t2 = true)
    (h4 : r.DeviceNameChangeAgent = some a2) (ha2 : a2 < 256) :
    ∃ bs, profileBuildG1 r = some bs ∧ bs.length = 18 ∧
      ∀ rest, profileParseG1 true (bs ++ rest)
        = some (ProfileG1.mk r.HwagChangeTime r.HwagChangeAgent
            r.DeviceNameChangeTime r.DeviceNameChangeAgent, rest) := by
  obtain ⟨bt1, hbt1, hlt1, hpt1⟩ := bandField_rt t1 hrt1
  obtain ⟨bt2, hbt2, hlt2, hpt2⟩ := bandField_rt t2 hrt2
  obtain ⟨hba1, hpa1⟩ := byteField_rt a1 ha1
  obtain ⟨hba2, hpa2⟩ := byteField_rt a2 ha2
  refine ⟨bt1 ++ ([a1] ++ (bt2 ++ [a2])), ?_, ?_, ?_⟩
  · unfold profileBuildG1
    rw [decide_eq_true hver, h1, h2, h3, h4]
    simp only [ifBuild, if_true]
    rw [hbt1, option_some_bind, hba1, option_some_bind, hbt2,
        option_some_bind, hba2, option_some_bind]
    rfl
  · simp [hlt1, hlt2]
  · intro rest
    unfold profileParseG1
    simp only [List.append_assoc, ifParse, if_true]
    rw [hpt1, Option.map_some', option_some_bind, hpa1, Option.map_some',
        option_some_bind, hpt2, Option.map_some', option_some_bind, hpa2,
        Option.map_some', option_some_bind, h1, h2, h3, h4]
    rfl

theorem chunkG2_rt (r : ProfileRec) (t1 t2 : Int) (a1 a2 a3 : Nat)
    (hver : 2 ≤ r.Version)
    (h1 : r.LocaleSettingsChangeTime = some t1)
    (hrt1 : bandRoundTripsB t1 = true)
    (h2 : r.LocaleSettingsChangeAgent = some a1) (ha1 : a1 < 256)
    (h3 : r.LanguageChangeTime = some t2) (hrt2 : bandRoundTripsB t2 = true)
    (h4 : r.LanguageChangeAgent = some a2) (ha2 : a2 < 256)
    (h5 : r.MaxHR = some a3) (ha3 : a3 < 256) :
    ∃ bs, profileBuildG2 r = some bs ∧ bs.length = 19 ∧
      ∀ rest, profileParseG2 true (bs ++ rest)
        = some (ProfileG2.mk r.LocaleSettingsChangeTime
            r.LocaleSettingsChangeAgent r.LanguageChangeTime
            r.LanguageChangeAgent r.MaxHR, rest) := by
  obtain ⟨bt1, hbt1, hlt1, hpt1⟩ := bandField_rt t1 hrt1
  obtain ⟨bt2, hbt2, hlt2, hpt2⟩ := bandField_rt t2 hrt2
  obtain ⟨hba1, hpa1⟩ := byteField_rt a1 ha1
  obtain ⟨hba2, hpa2⟩ := byteField_rt a2 ha2
  obtain ⟨hba3, hpa3⟩ := byteField_rt a3 ha3
  refine ⟨bt1 ++ ([a1] ++ (bt2 ++ ([a2] ++ [a3]))), ?_, ?_, ?_⟩
  · unfold profileBuildG2
    rw [decide_eq_true hver, h1, h2, h3, h4, h5]
    simp only [ifBuild, if_true]
    rw [hbt1, option_some_bind, hba1, option_some_bind, hbt2,
        option_some_bind, hba2, option_some_bind, hba3, option_some_bind]
    rfl
  · simp [hlt1, hlt2]
  · intro rest
    unfold profileParseG2
    simp only [List.append_assoc, ifParse, if_true]
    rw [hpt1, Option.map_some', option_some_bind, hpa1, Option.map_some',
        option_some_bind, hpt2, Option.map_some', option_some_bind, hpa2,
        Option.map_some', option_some_bind, hpa3, Option.map_some',
        option_some_bind, h1, h2, h3, h4, h5]
    rfl

/-- All nine version-gated `Profile` fields decoded as absent. -/
def gatedAbsent (q : ProfileRec) : Prop :=
  q.HwagChangeTime = none ∧ q.HwagChangeAgent = none
    ∧ q.DeviceNameChangeTime = none ∧ q.DeviceNameChangeAgent = none
    ∧ q.LocaleSettingsChangeTime = none ∧ q.LocaleSettingsChangeAgent = none
    ∧ q.LanguageChangeTime = none ∧ q.LanguageChangeAgent = none
    ∧ q.MaxHR = none

/-- All nine version-gated `Profile` fields decoded as present. -/
def gatedPresent (q : ProfileRec) : Prop :=
  q.HwagChangeTime.isSome ∧ q.HwagChangeAgent.isSome
    ∧ q.DeviceNameChangeTime.isSome ∧ q.DeviceNameChangeAgent.isSome
    ∧ q.LocaleSettingsChangeTime.isSome ∧ q.LocaleSettingsChangeAgent.isSome
    ∧ q.LanguageChangeTime.isSome ∧ q.LanguageChangeAgent.isSome
    ∧ q.MaxHR.isSome

theorem mkProfile_eta (r : ProfileRec) :
    mkProfile
      (ProfileA.mk r.Version r.LastSync r.UserGUID r.Birthday r.Weight_g
        r.Height_mm)
      (ProfileB.mk r.Gender r.DeviceName r.LocaleName r.LocaleId r.Language)
      (ProfileC.mk r.DateSeparator r.NumberSeparator r.DecimalSeparator
        r.TimeFormat r.DateFormat)
      (ProfileD.mk r.DistanceShortUnits r.DistanceLongUnits r.MassUnits
        r.VolumeUnits r.EnergyUnits r.TemperatureUnits r.RunDisplayUnits
        r.Telemetry)
      (ProfileG1.mk r.HwagChangeTime r.HwagChangeAgent r.DeviceNameChangeTime
        r.DeviceNameChangeAgent)
      (ProfileG2.mk r.LocaleSettingsChangeTime r.LocaleSettingsChangeAgent
        r.LanguageChangeTime r.LanguageChangeAgent r.MaxHR)
      r.ReservedData = r := rfl

theorem parseG1_false (i : List Nat) :
    profileParseG1 false i = some (ProfileG1.mk none none none none, i) := rfl

theorem parseG2_false (i : List Nat) :
    profileParseG2 false i
      = some (ProfileG2.mk none none none none none, i) := rfl

theorem parseG1_true_isSome {i rest : List Nat} {g : ProfileG1}
    (h : profileParseG1 true i = some (g, rest)) :
    g.HwagChangeTime.isSome ∧ g.HwagChangeAgent.isSome
      ∧ g.DeviceNameChangeTime.isSome ∧ g.DeviceNameChangeAgent.isSome := by
  unfold profileParseG1 at h
  simp only [ifParse, if_true] at h
  obtain ⟨p1, hp1, h⟩ := option_bind_eq_some.mp h
  obtain ⟨q1, hq1, hp1e⟩ := Option.map_eq_some'.mp hp1
  obtain ⟨p2, hp2, h⟩ := option_bind_eq_some.mp h
  obtain ⟨q2, hq2, hp2e⟩ := Option.map_eq_some'.mp hp2
  obtain ⟨p3, hp3, h⟩ := option_bind_eq_some.mp h
  obtain ⟨q3, hq3, hp3e⟩ := Option.map_eq_some'.mp hp3
  obtain ⟨p4, hp4, h⟩ := option_bind_eq_some.mp h
  obtain ⟨q4, hq4, hp4e⟩ := Option.map_eq_some'.mp hp4
  subst hp1e hp2e hp3e hp4e
  simp only [Option.pure_def, Option.some_inj, Prod.mk.injEq] at h
  obtain ⟨hg, -⟩ := h
  subst hg
  simp

theorem parseG2_true_isSome {i rest : List Nat} {g : ProfileG2}
    (h : profileParseG2 true i = some (g, rest)) :
    g.LocaleSettingsChangeTime.isSome ∧ g.LocaleSettingsChangeAgent.isSome
      ∧ g.LanguageChangeTime.isSome ∧ g.LanguageChangeAgent.isSome
      ∧ g.MaxHR.isSome := by
  unfold profileParseG2 at h
  simp only [ifParse, if_true] at h
  obtain ⟨p1, hp1, h⟩ := option_bind_eq_some.mp h
  obtain ⟨q1, hq1, hp1e⟩ := Option.map_eq_some'.mp hp1
  obtain ⟨p2, hp2, h⟩ := option_bind_eq_some.mp h
  obtain ⟨q2, hq2, hp2e⟩ := Option.map_eq_some'.mp hp2
  obtain ⟨p3, hp3, h⟩ := option_bind_eq_some.mp h
  obtain ⟨q3, hq3, hp3e⟩ := Option.map_eq_some'.mp hp3
  obtain ⟨p4, hp4, h⟩ := option_bind_eq_some.mp h
  obtain ⟨q4, hq4, hp4e⟩ := Option.map_eq_some'.mp hp4
  obtain ⟨p5, hp5, h⟩ := option_bind_eq_some.mp h
  obtain ⟨q5, hq5, hp5e⟩ := Option.map_eq_some'.mp hp5
  subst hp1e hp2e hp3e hp4e hp5e
  simp only [Option.pure_def, Option.some_inj, Prod.mk.injEq] at h
  obtain ⟨hg, -⟩ := h
  subst hg
  simp

theorem profile_gating (b : List Nat) (q : ProfileRec)
    (h : profileDecode b = some q) :
    (q.Version = 1 → gatedAbsent q) ∧ (2 ≤ q.Version → gatedPresent q) := by
  unfold profileDecode at h
  obtain ⟨p, hp, hq⟩ := Option.map_eq_some'.mp h
  unfold paddedParse at hp
  obtain ⟨p', hp', hcond⟩ := Option.bind_eq_some.mp hp
  have hpq : p.1 = p'.1 := by
    split at hcond
    · cases hcond
      rfl
    · cases hcond
  unfold profileParse at hp'
  obtain ⟨a, ha, hp'⟩ := option_bind_eq_some.mp hp'
  obtain ⟨bb, hbb, hp'⟩ := option_bind_eq_some.mp hp'
  obtain ⟨c, hc, hp'⟩ := option_bind_eq_some.mp hp'
  obtain ⟨d, hd, hp'⟩ := option_bind_eq_some.mp hp'
  obtain ⟨g1, hg1, hp'⟩ := option_bind_eq_some.mp hp'
  obtain ⟨g2, hg2, hp'⟩ := option_bind_eq_some.mp hp'
  simp only [Option.pure_def, Option.some_inj] at hp'
  have hqeq : q = mkProfile a.1 bb.1 c.1 d.1 g1.1 g2.1 g2.2 := by
    rw [← hq, hpq, ← hp']
  have hver : q.Version = a.1.Version := by
    rw [hqeq]
    rfl
  constructor
  · intro h1
    have hfalse : decide (2 ≤ a.1.Version) = false := by
      rw [← hver, h1]
      rfl
    rw [hfalse, parseG1_false] at hg1
    rw [hfalse, parseG2_false] at hg2
    obtain ⟨hg1a, -⟩ := Prod.mk.injEq .. ▸ (Option.some_inj.mp hg1)
    obtain ⟨hg2a, -⟩ := Prod.mk.injEq .. ▸ (Option.some_inj.mp hg2)
    rw [hqeq]
    unfold gatedAbsent mkProfile
    rw [← hg1a, ← hg2a]
    exact ⟨rfl, rfl, rfl, rfl, rfl, rfl, rfl, rfl, rfl⟩
  · intro h2
    have htrue : decide (2 ≤ a.1.Version) = true :=
      decide_eq_true (by omega)
    rw [htrue] at hg1 hg2
    have e1 := parseG1_true_isSome hg1
    have e2 := parseG2_true_isSome hg2
    rw [hqeq]
    unfold gatedPresent mkProfile
    exact ⟨e1.1, e1.2.1, e1.2.2.1, e1.2.2.2, e2.1, e2.2.1, e2.2.2.1,
      e2.2.2.2.1, e2.2.2.2.2⟩

theorem bandRTOptB_some {o : Option Int} (h : bandRTOptB o = true) :
    ∃ v, o = some v ∧ bandRoundTripsB v = true := by
  cases o with
  | none => simp [bandRTOptB] at h
  | some v => exact ⟨v, rfl, h⟩

theorem byteOptB_some {o : Option Nat} (h : byteOptB o = true) :
    ∃ v, o = some v ∧ v < 256 := by
  cases o with
  | none => simp [byteOptB] at h
  | some v => exact ⟨v, rfl, by simpa [byteOptB] using h⟩

/-- C7 amended: every successfully decoded `Profile` has all nine
version-gated fields absent when its `Version` is 1 and all nine present when
its `Version` is at least 2; and a `Version = 2` record round-trips —
`decode(encode(r)) = r` — provided its field values are codec-representable,
its timestamps survive the float-based tick conversion, and its
`ReservedData` is exactly the 255 bytes that fill the declared 397-byte size
(`profileValidB`); with shorter reserved data the zero padding grows the
field on decode (see the counterexample). -/
theorem profile_version_gating_and_roundtrip (r : ProfileRec)
    (hv : profileValidB r = true) (hver : r.Version = 2) :
    (∀ (b : List Nat) (q : ProfileRec), profileDecode b = some q →
        (q.Version = 1 → gatedAbsent q) ∧ (2 ≤ q.Version → gatedPresent q))
      ∧ (profileEncode r).bind profileDecode = some r := by
  refine ⟨profile_gating, ?_⟩
  simp only [profileValidB, Bool.and_eq_true, decide_eq_true_eq,
    Bool.or_eq_true, beq_iff_eq] at hv
  obtain ⟨⟨⟨⟨⟨⟨⟨⟨⟨⟨⟨⟨⟨⟨⟨⟨⟨⟨⟨⟨⟨⟨⟨⟨⟨⟨⟨⟨⟨⟨⟨⟨h1, h2⟩, h3⟩, h4⟩, h5⟩, h6⟩, h7⟩, h8⟩, h9⟩, h10⟩, h11⟩, h12⟩, h13⟩, h14⟩, h15⟩, h16⟩, h17⟩, h18⟩, h19⟩, h20⟩, h21⟩, h22⟩, h23⟩, h24⟩, h25⟩, h26⟩, h27⟩, h28⟩, h29⟩, h30⟩, h31⟩, h32⟩, h33⟩ := hv
  obtain ⟨t1, hT1, hrtT1⟩ := bandRTOptB_some h24
  obtain ⟨a1, hA1, haA1⟩ := byteOptB_some h25
  obtain ⟨t2, hT2, hrtT2⟩ := bandRTOptB_some h26
  obtain ⟨a2, hA2, haA2⟩ := byteOptB_some h27
  obtain ⟨t3, hT3, hrtT3⟩ := bandRTOptB_some h28
  obtain ⟨a3, hA3, haA3⟩ := byteOptB_some h29
  obtain ⟨t4, hT4, hrtT4⟩ := bandRTOptB_some h30
  obtain ⟨a4, hA4, haA4⟩ := byteOptB_some h31
  obtain ⟨a5, hA5, haA5⟩ := byteOptB_some h32
  obtain ⟨bsA, hbA, hlA, hpA⟩ := chunkA_rt r h1 h2 h3 h4 h5 h6
  obtain ⟨bsB, hbB, hlB, hpB⟩ := chunkB_rt r h7 h8 h9 h10 h11
  obtain ⟨bsC, hbC, hlC, hpC⟩ := chunkC_rt r h12 h13 h14 h15 h16
  obtain ⟨bsD, hbD, hlD, hpD⟩ := chunkD_rt r h17 h18 h19 h20 h21 h22 h23
  obtain ⟨bsG1, hbG1, hlG1, hpG1⟩ := chunkG1_rt r t1 t2 a1 a2 (by omega)
    hT1 hrtT1 hA1 haA1 hT2 hrtT2 hA2 haA2
  obtain ⟨bsG2, hbG2, hlG2, hpG2⟩ := chunkG2_rt r t3 t4 a3 a4 a5 (by omega)
    hT3 hrtT3 hA3 haA3 hT4 hrtT4 hA4 haA4 hA5 haA5
  have hcontent : profileContent r = some (bsA ++ (bsB ++ (bsC ++ (bsD ++
      (bsG1 ++ (bsG2 ++ r.ReservedData)))))) := by
    unfold profileContent
    rw [hbA, option_some_bind, hbB, option_some_bind, hbC, option_some_bind,
        hbD, option_some_bind, hbG1, option_some_bind, hbG2,
        option_some_bind]
    rfl
  have hclen : (bsA ++ (bsB ++ (bsC ++ (bsD ++
      (bsG1 ++ (bsG2 ++ r.ReservedData)))))).length = 397 := by
    simp [hlA, hlB, hlC, hlD, hlG1, hlG2, h33]
  have henc : profileEncode r = some (bsA ++ (bsB ++ (bsC ++ (bsD ++
      (bsG1 ++ (bsG2 ++ r.ReservedData)))))) := by
    unfold profileEncode paddedBuild
    rw [hcontent, Option.some_bind, if_pos (by simp [hclen]), hclen]
    simp
  have hparse : profileParse (bsA ++ (bsB ++ (bsC ++ (bsD ++
      (bsG1 ++ (bsG2 ++ r.ReservedData)))))) = some (r, []) := by
    unfold profileParse
    rw [hpA, option_some_bind, hpB, option_some_bind, hpC, option_some_bind,
        hpD, option_some_bind]
    dsimp only
    have hcnd : decide (2 ≤ r.Version) = true := decide_eq_true (by omega)
    rw [hcnd, hpG1, option_some_bind]
    dsimp only
    rw [hpG2, option_some_bind]
    dsimp only
    rw [mkProfile_eta r]
    rfl
  rw [henc, Option.some_bind]
  unfold profileDecode paddedParse
  rw [hparse, Option.some_bind, if_pos (by simp [hclen])]
  simp

/-- A concrete `Version = 2` profile with epoch timestamps, empty strings,
zero codes, the nine gated fields present, and the given reserved bytes. -/
def profileSample (res : List Nat) : ProfileRec :=
  ProfileRec.mk 2 0 (List.replicate 16 0) 0 0 0 0 [] [] 0 0 [] [] [] 0 0 0 0 0
    0 0 0 0 false (some 0) (some 0) (some 0) (some 0) (some 0) (some 0)
    (some 0) (some 0) (some 0) res

/-- C7 witness: the theorem applied to the concrete valid record with a full
255-byte reserved field. -/
theorem profile_version_gating_and_roundtrip_witness :
    (∀ (b : List Nat) (q : ProfileRec), profileDecode b = some q →
        (q.Version = 1 → gatedAbsent q) ∧ (2 ≤ q.Version → gatedPresent q))
      ∧ (profileEncode (profileSample (List.replicate 255 0))).bind
          profileDecode = some (profileSample (List.replicate 255 0)) :=
  profile_version_gating_and_roundtrip (profileSample (List.replicate 255 0))
    (by decide) rfl

/-- C7 counterexample: the `Version = 2` record `profileSample []` (reserved
bytes empty) does not round-trip: its encoding is zero-padded to 397 bytes
and `GreedyBytes` hands all 255 padding bytes back as `ReservedData`, so the
decoded record differs from the original. -/
theorem profile_roundtrip_reserved_grows :
    ((profileEncode (profileSample [])).bind profileDecode).map
        ProfileRec.ReservedData = some (List.replicate 255 0)
      ∧ (profileEncode (profileSample [])).bind profileDecode
          ≠ some (profileSample []) := by
  have h : ((profileEncode (profileSample [])).bind profileDecode).map
      ProfileRec.ReservedData = some (List.replicate 255 0) := by decide
  refine ⟨h, fun hc => ?_⟩
  rw [hc] at h
  simp only [Option.map_some', Option.some_inj] at h
  exact absurd h (by decide)

end Msband
